import Mathlib

/-!
Verification development for the submission-intake server (`src/server.py`).

The Python request handler works on JSON objects (Python `dict`s preserving
insertion order); we embed them as ordered association lists
`List (String × String)`.  Outbound network calls (`requests.post`),
library base64 decoding, the current date and the random token bytes are
boundary collaborators and are supplied through an explicit `Env` record;
everything else is translated directly from the source.
-/

namespace Solicit

/-- Python `form_data.get(k, d)`: the stored value when the key is present
(even if empty), `d` otherwise. -/
def getD (fd : List (String × String)) (k d : String) : String :=
  match fd.lookup k with
  | some v => v
  | none => d

/-- Python `form_data.get(k)` read as a string with `None` collapsed to `""`
(the two are treated identically by every truthiness test in the source). -/
def getS (fd : List (String × String)) (k : String) : String :=
  getD fd k ""

/-- Truthiness of `form_data.get(k)` in the source: key present with a
non-empty value. -/
def isFilled (fd : List (String × String)) (k : String) : Bool :=
  getS fd k != ""

/-- Python `d[k] = v` on an insertion-ordered dict: replace the value at the
first occurrence of `k`, or append a new entry at the end. -/
def dictSet : List (String × String) → String → String → List (String × String)
  | [], k, v => [(k, v)]
  | (k', v') :: rest, k, v =>
      if k' = k then (k', v) :: rest else (k', v') :: dictSet rest k v

/-! ## Field validators (`validate_email`, `validate_phone`, `validate_birthdate`) -/

/-- Characters of the regex class `[a-zA-Z0-9._%+-]` (the local part). -/
def isLocalChar (c : Char) : Bool :=
  c.isAlphanum || c == '.' || c == '_' || c == '%' || c == '+' || c == '-'

/-- Characters of the regex class `[a-zA-Z0-9.-]` (the domain part). -/
def isDomainChar (c : Char) : Bool :=
  c.isAlphanum || c == '.' || c == '-'

/-- Split a character list at every occurrence of `sep` (the separators are
dropped; `n` separators give `n+1` pieces). -/
def splitOnChar (sep : Char) : List Char → List (List Char)
  | [] => [[]]
  | c :: cs =>
      match splitOnChar sep cs with
      | [] => if c == sep then [[], []] else [[c]]
      | h :: t => if c == sep then [] :: h :: t else (c :: h) :: t

/-- Full (entire-string) match of the source's email regex
`^[a-zA-Z0-9._%+-]+@[a-zA-Z0-9.-]+\.[a-zA-Z]{2,}$`: exactly one `@`, a
non-empty local part, and a domain whose trailing run of letters (the TLD,
necessarily the part after the last dot) has length ≥ 2 and is preceded by a
dot and a non-empty run of domain characters.  This is also the spec's
"`local@domain.tld` shape and nothing but that shape". -/
def matchEmailShape (cs : List Char) : Bool :=
  match splitOnChar '@' cs with
  | [loc, rest] =>
      !loc.isEmpty && loc.all isLocalChar &&
      (let r := rest.reverse
       let tld := r.takeWhile Char.isAlpha
       decide (2 ≤ tld.length) &&
       (match r.drop tld.length with
        | '.' :: dom => !dom.isEmpty && dom.all isDomainChar
        | _ => false))
  | _ => false

/-- The source's `validate_email`: `re.match` of the anchored pattern.  In
Python's `re`, `$` also matches just before a single newline at the very end
of the string, so a shape-matching string followed by one `'\n'` is accepted
as well. -/
def validate_email (email : String) : Bool :=
  let cs := email.data
  matchEmailShape cs ||
    (match cs.getLast? with
     | some c => c == '\n' && matchEmailShape cs.dropLast
     | none => false)

/-- The source's `validate_phone`: strip non-digits, require at least 10
digits. -/
def validate_phone (phone : String) : Bool :=
  decide (10 ≤ (phone.data.filter Char.isDigit).length)

/-- Numeric value of a decimal digit character. -/
def digitVal (c : Char) : Nat := c.toNat - '0'.toNat

/-- Value of a list of decimal digit characters, most significant first. -/
def natOfDigits (cs : List Char) : Nat :=
  cs.foldl (fun a c => a * 10 + digitVal c) 0

/-- Gregorian leap-year rule, as used by Python's `datetime.date`. -/
def isLeapYear (y : Nat) : Bool :=
  y % 4 == 0 && (y % 100 != 0 || y % 400 == 0)

/-- Days in a month, as enforced by Python's `datetime.date` constructor. -/
def daysInMonth (y m : Nat) : Nat :=
  if m = 2 then (if isLeapYear y then 29 else 28)
  else if m = 4 || m = 6 || m = 9 || m = 11 then 30
  else 31

/-- The parse performed by `datetime.strptime(s, '%Y-%m-%d').date()`:
CPython's `_strptime` regex requires exactly four digits for `%Y`, one or two
digits valued 1–12 for `%m`, one or two digits valued 1–31 for `%d`, the
whole string consumed; the `date` constructor then requires year ≥ 1 and the
day to exist in the month.  Returns `none` exactly when the Python code
raises `ValueError`. -/
def strptimeYMD (s : String) : Option (Nat × Nat × Nat) :=
  match splitOnChar '-' s.data with
  | [ys, ms, ds] =>
      if ys.length = 4 && ys.all Char.isDigit
          && (ms.length = 1 || ms.length = 2) && ms.all Char.isDigit
          && (ds.length = 1 || ds.length = 2) && ds.all Char.isDigit then
        let y := natOfDigits ys
        let m := natOfDigits ms
        let d := natOfDigits ds
        if 1 ≤ y && 1 ≤ m && m ≤ 12 && 1 ≤ d && d ≤ daysInMonth y m then
          some (y, m, d)
        else none
      else none
  | _ => none

/-- The source's `validate_birthdate`, parameterised by the current date
`today = (year, month, day)`:
`age = today.year - birth.year - ((today.month, today.day) < (birth.month, birth.day))`,
accepted iff `age ≥ 18`; parse failure yields `false`. -/
def validate_birthdate (today : Nat × Nat × Nat) (s : String) : Bool :=
  match strptimeYMD s with
  | none => false
  | some (by_, bm, bd) =>
      let dec : Int :=
        if today.2.1 < bm || (today.2.1 == bm && today.2.2 < bd) then 1 else 0
      decide (18 ≤ (today.1 : Int) - (by_ : Int) - dec)

/-- The source's `validate_image_size`: byte length at most `maxSizeMb` MiB. -/
def validate_image_size (imageData : List Nat) (maxSizeMb : Nat := 10) : Bool :=
  decide (imageData.length ≤ maxSizeMb * 1024 * 1024)

/-! ## Boundary environment

The handler's external collaborators: the Telegram text endpoint (success or
a network-error/non-success failure), the per-slot outcome of the media
endpoint, library base64 decoding (`base64.b64decode`: some bytes, or a
binascii error), the current date, and the four random bytes drawn by
`secrets.token_hex(4)`. -/

structure Env where
  textOk : Bool
  uploadOk : String → Bool
  b64decode : String → Option (List Nat)
  today : Nat × Nat × Nat
  tokenBytes : List Nat

/-- The source's `process_image_data`: if the payload contains a comma, the
part after the first comma is base64-decoded (data-URL scheme stripping),
else the whole payload; the decode error or an over-10 MiB result makes the
function raise, i.e. return `none` here. -/
def process_image_data (env : Env) (photo : String) : Option (List Nat) :=
  let decoded :=
    match splitOnChar ',' photo.data with
    | [_] => env.b64decode photo
    | _ :: p :: _ => env.b64decode (String.mk p)
    | [] => none
  match decoded with
  | none => none
  | some imageData =>
      if validate_image_size imageData then some imageData else none

/-! ## Dispatcher (`send_to_telegram`) -/

/-- Observable events of one dispatch: the text-message post, the start of
processing (decode attempt) for one photo slot, and a media post for one
slot together with its success flag. -/
inductive TgCall where
  | sendMessage (text : String) : TgCall
  | processPhoto (slot : String) : TgCall
  | sendPhoto (slot : String) (ok : Bool) : TgCall
deriving Repr, DecidableEq

/-- The photo loop of `send_to_telegram`: iterate the photos mapping in
order; skip empty payloads; on decode failure log and continue; on decode
success post the photo (its failure is also only logged). -/
def send_photos (env : Env) : List (String × String) → List TgCall
  | [] => []
  | (pType, photo) :: rest =>
      if photo != "" then
        (TgCall.processPhoto pType ::
          (match process_image_data env photo with
           | none => []
           | some _ => [TgCall.sendPhoto pType (env.uploadOk pType)]))
        ++ send_photos env rest
      else send_photos env rest

/-- The source's `send_to_telegram`: post the text first; a failure there
returns `False` with no photo attempted; otherwise run the photo loop and
return `True`. -/
def send_to_telegram (env : Env) (message : String)
    (photoData : List (String × String)) : Bool × List TgCall :=
  if env.textOk then
    (true, TgCall.sendMessage message :: send_photos env photoData)
  else
    (false, [TgCall.sendMessage message])

/-- Slots for which a decode/upload was attempted, in attempt order. -/
def attempted_slots (calls : List TgCall) : List String :=
  calls.filterMap (fun c =>
    match c with
    | TgCall.processPhoto s => some s
    | _ => none)

/-- Whether a dispatch event is a media-upload post. -/
def isMediaUpload : TgCall → Bool
  | TgCall.sendPhoto _ _ => true
  | _ => false

/-- Whether a dispatch event is a successful media-upload post. -/
def isSuccessfulUpload : TgCall → Bool
  | TgCall.sendPhoto _ ok => ok
  | _ => false

/-! ## Schema selection and defaults -/

/-- Required fields for a job application, in source order, with their
error messages. -/
def required_fields_job : List (String × String) :=
  [("firstName", "Nome é obrigatório"),
   ("email", "Email é obrigatório"),
   ("phone", "Telefone é obrigatório"),
   ("country", "País é obrigatório"),
   ("employmentStatus", "Situação de emprego é obrigatória")]

/-- Optional fields defaulted for a job application, in source order. -/
def optional_fields_job : List (String × String) :=
  [("lastName", "N/A"),
   ("addressLine1", "Não informado - Candidatura Online"),
   ("city", "Não informado"),
   ("state", "Não informado"),
   ("postalCode", "00000-000"),
   ("income", "Não informado"),
   ("employmentStatus", "candidate")]

/-- Required fields for a NextCard (financial card) application, in source
order, with their error messages. -/
def required_fields_nextcard : List (String × String) :=
  [("firstName", "Nome é obrigatório"),
   ("lastName", "Sobrenome é obrigatório"),
   ("email", "Email é obrigatório"),
   ("phone", "Telefone é obrigatório"),
   ("idNumber", "Número de identificação é obrigatório"),
   ("birthdate", "Data de nascimento é obrigatória"),
   ("country", "País é obrigatório"),
   ("addressLine1", "Endereço é obrigatório"),
   ("city", "Cidade é obrigatória"),
   ("state", "Estado é obrigatório"),
   ("postalCode", "CEP é obrigatório"),
   ("currency", "Moeda é obrigatória"),
   ("income", "Renda anual é obrigatória"),
   ("occupation", "Ocupação é obrigatória"),
   ("employmentStatus", "Situação de emprego é obrigatória"),
   ("cardType", "Tipo de cartão é obrigatório")]

/-- One step of the optional-defaults loop:
`if not form_data.get(field): form_data[field] = default_value`. -/
def fillDefault (acc : List (String × String)) (p : String × String) :
    List (String × String) :=
  if isFilled acc p.1 then acc else dictSet acc p.1 p.2

/-- The optional-defaults loop for job applications. -/
def applyDefaults (fd : List (String × String)) : List (String × String) :=
  optional_fields_job.foldl fillDefault fd

/-- The job-application discriminator:
`form_data.get('applicationType') == 'job_application' or form_data.get('cardType') == 'Vaga de Emprego'`. -/
def is_job_application (fd : List (String × String)) : Bool :=
  getS fd "applicationType" == "job_application"
    || getS fd "cardType" == "Vaga de Emprego"

/-- The form data every downstream stage sees: the in-place defaulted dict
for a job application, the original dict otherwise. -/
def resolved_fd (fd : List (String × String)) : List (String × String) :=
  if is_job_application fd then applyDefaults fd else fd

/-- The required-field set chosen for the submission. -/
def resolved_required (fd : List (String × String)) : List (String × String) :=
  if is_job_application fd then required_fields_job else required_fields_nextcard

/-- The required-field loop: the message of the first field (in set order)
that is absent or empty, `none` when all are present and non-empty. -/
def firstMissing (req : List (String × String)) (fd : List (String × String)) :
    Option String :=
  match req with
  | [] => none
  | (f, m) :: rest => if isFilled fd f then firstMissing rest fd else some m

/-- The photo-presence loop: the first of the listed slot names whose
payload is absent or empty. -/
def firstUnfilled (keys : List String) (photos : List (String × String)) :
    Option String :=
  match keys with
  | [] => none
  | k :: rest => if isFilled photos k then firstUnfilled rest photos else some k

/-! ## Message formatter -/

/-- Python `sum(1 for photo in photos.values() if photo)`: the number of
non-empty values in the whole photos mapping. -/
def countNonEmpty (photos : List (String × String)) : Nat :=
  (photos.filter (fun p => p.2 != "")).length

/-- The two message templates of the handler, transcribed from the source
f-strings (job application branch and NextCard branch). -/
def format_message (isJob : Bool) (fd photos : List (String × String)) : String :=
  let cnt := countNonEmpty photos
  if isJob then
    ("📋 *Nova Candidatura Recebida* 📋\n\n*Informações Pessoais:*\n• Nome: "
      ++ getS fd "firstName" ++ " " ++ getS fd "lastName"
      ++ "\n• Email: " ++ getS fd "email"
      ++ "\n• Telefone: " ++ getS fd "phone"
      ++ "\n• Celular: " ++ getD fd "cellphone" "Não informado"
      ++ "\n• País: " ++ getS fd "country"
      ++ "\n• Nacionalidade: " ++ getD fd "nationality" "Não informado"
      ++ "\n• Data Nascimento: " ++ getD fd "birthdate" "Não informado"
      ++ "\n\n*Informações Profissionais:*\n• Área de Interesse: "
      ++ getD fd "positionInterest" "Não informado"
      ++ "\n• Situação de Emprego: " ++ getD fd "employmentStatus" "Não informado"
      ++ "\n• Profissão: " ++ getD fd "occupation" "Não informado"
      ++ "\n• Salário Atual: " ++ getD fd "income" "Não informado"
      ++ "\n• Instituições: " ++ getD fd "institutions" "Não informado"
      ++ "\n• Experiência: " ++ getD fd "experience" "Não informado"
      ++ "\n• Escolaridade: " ++ getD fd "education" "Não informado"
      ++ "\n• Idiomas: " ++ getD fd "languages" "Não informado"
      ++ "\n• Habilidades: " ++ getD fd "skills" "Não informado"
      ++ "\n\n*Carta de Apresentação:*\n" ++ getD fd "coverLetter" "Não informada"
      ++ "\n\n*Fotos anexadas:* ")
    ++ (toString cnt ++ "/3")
  else
    ("📋 *Nova solicitação de NextCard* 📋\n\n*Informações Pessoais:*\n• Nome: "
      ++ getS fd "firstName" ++ " " ++ getS fd "lastName"
      ++ "\n• Email: " ++ getS fd "email"
      ++ "\n• Telefone: " ++ getS fd "phone"
      ++ "\n• ID/Passaporte: " ++ getS fd "idNumber"
      ++ "\n• Data de Nascimento: " ++ getS fd "birthdate"
      ++ "\n\n*Informações de Endereço:*\n• País: " ++ getS fd "country"
      ++ "\n• Endereço: " ++ getS fd "addressLine1"
      ++ "\n• Endereço 2: " ++ getS fd "addressLine2"
      ++ "\n• Cidade: " ++ getS fd "city"
      ++ "\n• Estado: " ++ getS fd "state"
      ++ "\n• Código Postal: " ++ getS fd "postalCode"
      ++ "\n\n*Informações Financeiras:*\n• Moeda: " ++ getS fd "currency"
      ++ "\n• Renda Anual: " ++ getS fd "income"
      ++ "\n• Ocupação: " ++ getS fd "occupation"
      ++ "\n• Situação de Emprego: " ++ getS fd "employmentStatus"
      ++ "\n• Tipo de Cartão: " ++ getS fd "cardType"
      ++ "\n\n*Fotos anexadas:* ")
    ++ (toString cnt ++ "/3")

/-! ## Tracking identifier -/

/-- Lowercase hexadecimal digit character for a value below 16. -/
def hexDigitChar (n : Nat) : Char :=
  if n = 0 then '0' else if n = 1 then '1' else if n = 2 then '2'
  else if n = 3 then '3' else if n = 4 then '4' else if n = 5 then '5'
  else if n = 6 then '6' else if n = 7 then '7' else if n = 8 then '8'
  else if n = 9 then '9' else if n = 10 then 'a' else if n = 11 then 'b'
  else if n = 12 then 'c' else if n = 13 then 'd' else if n = 14 then 'e'
  else 'f'

/-- `secrets.token_hex`: two lowercase hex digits per random byte. -/
def token_hex (bytes : List Nat) : List Char :=
  bytes.flatMap (fun b => [hexDigitChar (b / 16), hexDigitChar (b % 16)])

/-- The generated `applicationId`:
`f"{prefix}{secrets.token_hex(4).upper()}"` with the SchemaKind prefix. -/
def application_id (isJob : Bool) (bytes : List Nat) : String :=
  (if isJob then "JH" else "NC") ++ String.mk ((token_hex bytes).map Char.toUpper)

/-! ## Intake handler (`handle_submission`) -/

/-- JSON body of one `/submit` response. -/
structure HttpResponse where
  status : Nat
  success : Bool
  message : String
  applicationId : Option String
deriving Repr, DecidableEq

/-- The validation cascade of `handle_submission` (everything before the
Telegram dispatch), short-circuiting at the first failure: required fields
of the resolved schema over the defaulted form data, email shape, phone
digits, birthdate (NextCard only), then the three photo slots.  Returns the
400 message of the first failure, `none` when the submission reaches
dispatch. -/
def validation_error (env : Env) (formData photos : List (String × String)) :
    Option String :=
  let isJob := is_job_application formData
  let fd := resolved_fd formData
  match firstMissing (resolved_required formData) fd with
  | some m => some m
  | none =>
      if !validate_email (getS fd "email") then some "Email inválido"
      else if !validate_phone (getS fd "phone") then
        some "Número de telefone inválido"
      else if !isJob && !validate_birthdate env.today (getS fd "birthdate") then
        some "Você deve ter pelo menos 18 anos"
      else
        match firstUnfilled ["front", "back", "selfie"] photos with
        | some t => some ("Foto " ++ t ++ " é obrigatória")
        | none => none

/-- The source's `handle_submission` for a parsed JSON body: validation
cascade, message formatting, dispatch, and the mapping of the dispatch
outcome to the 200/500 response, returned together with the list of
outbound-call events. -/
def handle_submission (env : Env) (formData photos : List (String × String)) :
    HttpResponse × List TgCall :=
  match validation_error env formData photos with
  | some m => (⟨400, false, m, none⟩, [])
  | none =>
      let isJob := is_job_application formData
      let fd := resolved_fd formData
      let message := format_message isJob fd photos
      let r := send_to_telegram env message photos
      if r.1 then
        (⟨200, true, "Dados enviados com sucesso",
          some (application_id isJob env.tokenBytes)⟩, r.2)
      else
        (⟨500, false, "Erro ao enviar para o Telegram", none⟩, r.2)

/-- A submission passes the whole validation cascade and reaches dispatch. -/
def reaches_dispatch (env : Env) (formData photos : List (String × String)) :
    Bool :=
  (validation_error env formData photos).isNone

/-! ## Spec-side comparison definitions -/

/-- Boolean string-suffix test, used to state "the message ends with …". -/
def strEndsWith (s suffix : String) : Bool :=
  suffix.data.isSuffixOf s.data

/-- Modelled from the spec: "number of non-empty entries among the three
slots" — the attached-photos count the spec says the templates render,
counting only `front`, `back`, `selfie`.  Compared against the source's
`countNonEmpty`. -/
def specThreeSlotCount (photos : List (String × String)) : Nat :=
  ((["front", "back", "selfie"]).filter (fun t => isFilled photos t)).length

/-- The sixteen uppercase hexadecimal digit characters. -/
def uppercaseHexDigits : List Char :=
  ['0', '1', '2', '3', '4', '5', '6', '7', '8', '9', 'A', 'B', 'C', 'D', 'E', 'F']

/-! ## Concrete sample submissions and environments -/

/-- A fully valid NextCard (financial card) submission. -/
def fdNC : List (String × String) :=
  [("firstName", "Joao"), ("lastName", "Silva"), ("email", "joao@example.com"),
   ("phone", "11999990000"), ("idNumber", "12345678"), ("birthdate", "1990-05-10"),
   ("country", "Brasil"), ("addressLine1", "Rua A 1"), ("city", "Sao Paulo"),
   ("state", "SP"), ("postalCode", "01000-000"), ("currency", "BRL"),
   ("income", "50000"), ("occupation", "Engenheiro"),
   ("employmentStatus", "employed"), ("cardType", "Gold")]

/-- The valid NextCard submission with a malformed email. -/
def fdNCBadEmail : List (String × String) :=
  [("firstName", "Joao"), ("lastName", "Silva"), ("email", "not-an-email"),
   ("phone", "11999990000"), ("idNumber", "12345678"), ("birthdate", "1990-05-10"),
   ("country", "Brasil"), ("addressLine1", "Rua A 1"), ("city", "Sao Paulo"),
   ("state", "SP"), ("postalCode", "01000-000"), ("currency", "BRL"),
   ("income", "50000"), ("occupation", "Engenheiro"),
   ("employmentStatus", "employed"), ("cardType", "Gold")]

/-- A fully valid job-application submission (optional fields omitted). -/
def fdJob : List (String × String) :=
  [("applicationType", "job_application"), ("firstName", "Ana"),
   ("email", "ana@example.com"), ("phone", "11999990000"), ("country", "Brasil")]

/-- The job-application submission with an empty email field. -/
def fdJobMissing : List (String × String) :=
  [("applicationType", "job_application"), ("firstName", "Ana"),
   ("email", ""), ("phone", "11999990000"), ("country", "Brasil")]

/-- The three photo slots, all carrying a payload. -/
def photosOk : List (String × String) :=
  [("front", "QQ=="), ("back", "QQ=="), ("selfie", "QQ==")]

/-- A photos mapping listing the slots out of order plus an extra key. -/
def photosShuffled : List (String × String) :=
  [("selfie", "QQ=="), ("front", "QQ=="), ("back", "QQ=="), ("extra", "QQ==")]

/-- The three slots in order plus an extra non-empty key. -/
def photosExtra : List (String × String) :=
  [("front", "QQ=="), ("back", "QQ=="), ("selfie", "QQ=="), ("extra", "QQ==")]

/-- Environment where every outbound call succeeds. -/
def envTextOk : Env :=
  ⟨true, fun _ => true, fun _ => some [65], (2026, 10, 12), [18, 52, 171, 255]⟩

/-- Environment where the text-send call fails. -/
def envTextFail : Env :=
  ⟨false, fun _ => true, fun _ => some [65], (2026, 10, 12), [18, 52, 171, 255]⟩

/-- Environment where the text send succeeds but the `back` upload fails. -/
def envMixed : Env :=
  ⟨true, fun t => t != "back", fun _ => some [65], (2026, 10, 12), [18, 52, 171, 255]⟩

/-! ## Helper lemmas -/

/-- Unfolding of `isFilled` through `List.lookup`. -/
theorem isFilled_lookup (l : List (String × String)) (k : String) :
    isFilled l k = match l.lookup k with
      | some v => v != ""
      | none => false := by
  unfold isFilled getS getD
  cases l.lookup k <;> simp

/-- Filledness only depends on the looked-up value. -/
theorem isFilled_congr {l l' : List (String × String)} (k : String)
    (h : l.lookup k = l'.lookup k) : isFilled l k = isFilled l' k := by
  rw [isFilled_lookup, isFilled_lookup, h]

/-- Lookup after a Python-style dict assignment. -/
theorem lookup_dictSet (fd : List (String × String)) (k v k' : String) :
    (dictSet fd k v).lookup k' = if k' = k then some v else fd.lookup k' := by
  induction fd with
  | nil =>
      by_cases h : k' = k
      · simp [dictSet, List.lookup, h]
      · simp [dictSet, List.lookup, h, beq_eq_false_iff_ne.mpr h]
  | cons p rest ih =>
      obtain ⟨a, b⟩ := p
      by_cases hak : a = k
      · subst hak
        by_cases h : k' = a
        · simp [dictSet, List.lookup, h]
        · simp [dictSet, List.lookup, h, beq_eq_false_iff_ne.mpr h]
      · have hd : dictSet ((a, b) :: rest) k v = (a, b) :: dictSet rest k v := by
          simp [dictSet, hak]
        rw [hd]
        by_cases h2 : k' = a
        · subst h2
          have hkk : ¬ k' = k := fun hh => hak (hh ▸ rfl)
          simp [List.lookup, hkk]
        · simp [List.lookup, beq_eq_false_iff_ne.mpr h2, ih]

/-- A defaulting step for one field does not touch other keys. -/
theorem lookup_fillDefault_ne (acc : List (String × String))
    (p : String × String) (k : String) (h : p.1 ≠ k) :
    (fillDefault acc p).lookup k = acc.lookup k := by
  unfold fillDefault
  split
  · rfl
  · rw [lookup_dictSet]
    simp [Ne.symm h]

/-- The defaulting loop does not touch keys outside its field list. -/
theorem lookup_foldl_fillDefault_notMem (opts : List (String × String))
    (acc : List (String × String)) (k : String)
    (h : k ∉ opts.map Prod.fst) :
    (opts.foldl fillDefault acc).lookup k = acc.lookup k := by
  induction opts generalizing acc with
  | nil => rfl
  | cons p rest ih =>
      simp only [List.map_cons, List.mem_cons, not_or] at h
      rw [List.foldl_cons, ih _ h.2, lookup_fillDefault_ne _ _ _ (fun hp => h.1 hp.symm)]

/-- Behaviour of the defaulting loop on one of its own fields, provided the
field names in the list are distinct: the field keeps its value when it was
present and non-empty, and receives its default otherwise. -/
theorem lookup_foldl_fillDefault_mem (opts : List (String × String))
    (acc : List (String × String)) (f d : String)
    (hnd : (opts.map Prod.fst).Nodup) (hmem : (f, d) ∈ opts) :
    (opts.foldl fillDefault acc).lookup f
      = if isFilled acc f then acc.lookup f else some d := by
  induction opts generalizing acc with
  | nil => cases hmem
  | cons p rest ih =>
      simp only [List.map_cons, List.nodup_cons] at hnd
      rcases List.mem_cons.mp hmem with heq | htl
      · subst heq
        have hnotin : f ∉ rest.map Prod.fst := by simpa using hnd.1
        rw [List.foldl_cons, lookup_foldl_fillDefault_notMem _ _ _ hnotin]
        unfold fillDefault
        by_cases hf : isFilled acc f
        · simp [hf]
        · simp only [hf, if_neg, Bool.false_eq_true, not_false_eq_true, if_false]
          rw [lookup_dictSet]
          simp [hf]
      · have hf1 : p.1 ≠ f := by
          intro hp
          exact hnd.1 (hp ▸ (List.mem_map_of_mem Prod.fst htl))
        have hlk := lookup_fillDefault_ne acc p f hf1
        rw [List.foldl_cons, ih (fillDefault acc p) hnd.2 htl,
            isFilled_congr f hlk, hlk]

/-- All job-application optional defaults are non-empty strings. -/
theorem optional_defaults_nonempty :
    ∀ p ∈ optional_fields_job, p.2 ≠ "" := by decide

/-- The optional-field names of the job schema are pairwise distinct. -/
theorem optional_fields_job_nodup : (optional_fields_job.map Prod.fst).Nodup := by
  decide

/-- Lookup after the whole defaulting pass, for any of its fields. -/
theorem lookup_applyDefaults (fd : List (String × String)) (f d : String)
    (hmem : (f, d) ∈ optional_fields_job) :
    (applyDefaults fd).lookup f
      = if isFilled fd f then fd.lookup f else some d :=
  lookup_foldl_fillDefault_mem _ _ _ _ optional_fields_job_nodup hmem

/-- After the defaulting pass every optional field is non-empty. -/
theorem isFilled_applyDefaults (fd : List (String × String)) (f d : String)
    (hmem : (f, d) ∈ optional_fields_job) :
    isFilled (applyDefaults fd) f = true := by
  rw [isFilled_lookup, lookup_applyDefaults fd f d hmem]
  by_cases hf : isFilled fd f
  · rw [if_pos hf]
    rw [isFilled_lookup] at hf
    revert hf
    cases fd.lookup f <;> simp
  · rw [if_neg hf]
    simpa using optional_defaults_nonempty (f, d) hmem

/-- The first-missing-field loop only ever reports the message of a field of
its set that is indeed absent or empty. -/
theorem firstMissing_eq_some (req fd : List (String × String)) (m : String)
    (h : firstMissing req fd = some m) :
    ∃ f, (f, m) ∈ req ∧ isFilled fd f = false := by
  induction req with
  | nil => simp [firstMissing] at h
  | cons p rest ih =>
      obtain ⟨f', m'⟩ := p
      by_cases hf : isFilled fd f'
      · simp only [firstMissing, hf, if_true] at h
        obtain ⟨g, hg, hgf⟩ := ih h
        exact ⟨g, List.mem_cons_of_mem _ hg, hgf⟩
      · simp only [firstMissing, hf, if_false] at h
        exact ⟨f', by simp [← Option.some_inj.mp h], by simpa using hf⟩

/-- If some field of the set is absent or empty, the loop reports a message. -/
theorem firstMissing_isSome (req fd : List (String × String)) (f m : String)
    (hmem : (f, m) ∈ req) (hmiss : isFilled fd f = false) :
    (firstMissing req fd).isSome = true := by
  induction req with
  | nil => cases hmem
  | cons p rest ih =>
      obtain ⟨f', m'⟩ := p
      by_cases hf : isFilled fd f'
      · simp only [firstMissing, hf, if_true]
        rcases List.mem_cons.mp hmem with heq | htl
        · injection heq with h1 h2
          subst h1
          simp [hmiss] at hf
        · exact ih htl
      · simp [firstMissing, hf]

/-- Appending a suffix makes the suffix test succeed. -/
theorem strEndsWith_append (a b : String) : strEndsWith (a ++ b) b = true := by
  unfold strEndsWith
  rw [String.data_append, List.isSuffixOf_iff_suffix]
  exact List.suffix_append _ _

/-- Every lowercase hex digit uppercases into the uppercase hex alphabet. -/
theorem hexDigitChar_toUpper_mem :
    ∀ n, n < 16 → (hexDigitChar n).toUpper ∈ uppercaseHexDigits := by decide

/-- Length of the hex encoding: two characters per byte. -/
theorem token_hex_length (bytes : List Nat) :
    (token_hex bytes).length = 2 * bytes.length := by
  induction bytes with
  | nil => rfl
  | cons b rest ih =>
      simp [token_hex, List.flatMap_cons] at ih ⊢
      omega

/-- The decode-attempt trace distributes over concatenation. -/
theorem attempted_slots_append (l1 l2 : List TgCall) :
    attempted_slots (l1 ++ l2) = attempted_slots l1 ++ attempted_slots l2 := by
  simp [attempted_slots]

/-- The photo loop attempts a decode exactly for the non-empty entries of the
photos mapping, in mapping order. -/
theorem attempted_slots_send_photos (env : Env) (l : List (String × String)) :
    attempted_slots (send_photos env l)
      = (l.filter (fun p => p.2 != "")).map Prod.fst := by
  induction l with
  | nil => rfl
  | cons p rest ih =>
      obtain ⟨pt, ph⟩ := p
      by_cases hp : ph != ""
      · rw [show send_photos env ((pt, ph) :: rest)
              = (TgCall.processPhoto pt ::
                  (match process_image_data env ph with
                   | none => []
                   | some _ => [TgCall.sendPhoto pt (env.uploadOk pt)]))
                ++ send_photos env rest from by simp [send_photos, hp]]
        rw [attempted_slots_append]
        have hh : attempted_slots (TgCall.processPhoto pt ::
            (match process_image_data env ph with
             | none => []
             | some _ => [TgCall.sendPhoto pt (env.uploadOk pt)])) = [pt] := by
          cases process_image_data env ph <;> simp [attempted_slots]
        rw [hh, ih]
        simp [List.filter_cons, hp]
      · have hp' : (ph != "") = false := by simpa using hp
        simp [send_photos, hp', List.filter_cons, ih]

/-! ## Claims -/

/-- C3 counterexample: with a photos mapping listing the slots out of order
and carrying an extra non-empty key (a submission that passes validation),
the dispatcher's decode/upload attempts follow the mapping's own order and
include the extra key, so they are neither restricted to the three slots nor
made in the fixed order front, back, selfie. -/
theorem C3_counterexample :
    attempted_slots (handle_submission envTextOk fdJob photosShuffled).2
        = ["selfie", "front", "back", "extra"]
    ∧ attempted_slots (handle_submission envTextOk fdJob photosShuffled).2
        ≠ ["front", "back", "selfie"] := by
  decide

/-- C3 (amended): when the text send succeeds, the dispatcher attempts a
decode/upload exactly for the entries of the photos mapping that carry a
non-empty payload, in the mapping's own iteration order (which is the JSON
insertion order, not a fixed front, back, selfie order, and which includes
any extra keys present); when the text send fails nothing is attempted. -/
theorem C3_dispatch_attempts (env : Env) (msg : String)
    (photos : List (String × String)) :
    attempted_slots (send_to_telegram env msg photos).2
      = if env.textOk then (photos.filter (fun p => p.2 != "")).map Prod.fst
        else [] := by
  unfold send_to_telegram
  cases h : env.textOk
  · simp [h, attempted_slots]
  · rw [if_pos rfl]
    rw [show attempted_slots (TgCall.sendMessage msg :: send_photos env photos)
          = attempted_slots (send_photos env photos) from by simp [attempted_slots]]
    rw [attempted_slots_send_photos]
    simp [h]

set_option maxRecDepth 40000 in
/-- C4 counterexample: a NextCard submission that passes validation but
whose photos mapping carries a fourth non-empty key.  The number of
non-empty entries among the three slots is 3, yet the formatted message does
not end with "3/3" (it ends with "4/3", counting the extra key). -/
theorem C4_counterexample :
    reaches_dispatch envTextOk fdNC photosExtra = true
    ∧ specThreeSlotCount photosExtra = 3
    ∧ strEndsWith
        (format_message (is_job_application fdNC) (resolved_fd fdNC) photosExtra)
        (toString (specThreeSlotCount photosExtra) ++ "/3") = false
    ∧ strEndsWith
        (format_message (is_job_application fdNC) (resolved_fd fdNC) photosExtra)
        "4/3" = true := by
  decide

set_option maxRecDepth 8000 in
/-- C4 (amended): under either template the formatted message ends with a
trailing attached-photos count out of 3, but the count is the number of
non-empty entries in the whole photos mapping (which coincides with the
three-slot count only when the mapping carries no other non-empty key). -/
theorem C4_photo_count_suffix (isJob : Bool) (fd photos : List (String × String)) :
    strEndsWith (format_message isJob fd photos)
      (toString (countNonEmpty photos) ++ "/3") = true := by
  cases isJob
  · simp only [format_message, Bool.false_eq_true, if_false]
    exact strEndsWith_append _ _
  · simp only [format_message, if_true]
    exact strEndsWith_append _ _

/-- C5 counterexample: on 2026-10-12, the birthdate 2008-10-11 — the spec's
"one day later (year-18, yesterday)" case — is not rejected: the code
computes age 18 and accepts it. -/
theorem C5_counterexample :
    ¬ validate_birthdate (2026, 10, 12) "2008-10-11" = false := by
  decide

/-- C5 (amended): `validate_birthdate` returns false when the string does
not parse under the `%Y-%m-%d` format, and otherwise returns true iff the
whole-year age (decremented by one when the current month/day precedes the
birth month/day) is at least 18; a birthdate of exactly (year−18, today's
month/day) is accepted, a birthdate one day later — (year−18, tomorrow's
month/day) — is rejected, and a birthdate of (year−18, yesterday's
month/day) is accepted. -/
theorem C5_birthdate_boundary (today : Nat × Nat × Nat) (s : String) :
    (strptimeYMD s = none → validate_birthdate today s = false)
    ∧ (∀ y m d, strptimeYMD s = some (y, m, d) →
        (validate_birthdate today s = true ↔
          18 ≤ (today.1 : Int) - (y : Int) -
            (if today.2.1 < m ∨ (today.2.1 = m ∧ today.2.2 < d) then 1 else 0)))
    ∧ validate_birthdate (2026, 10, 12) "2008-10-12" = true
    ∧ validate_birthdate (2026, 10, 12) "2008-10-13" = false
    ∧ validate_birthdate (2026, 10, 12) "2008-10-11" = true := by
  refine ⟨?_, ?_, by decide, by decide, by decide⟩
  · intro h
    simp [validate_birthdate, h]
  · intro y m d h
    simp only [validate_birthdate, h, decide_eq_true_eq]
    have hc : (decide (today.2.1 < m) || (today.2.1 == m && decide (today.2.2 < d)))
          = true ↔ (today.2.1 < m ∨ (today.2.1 = m ∧ today.2.2 < d)) := by
      simp [Bool.or_eq_true, Bool.and_eq_true, beq_iff_eq, decide_eq_true_eq]
    by_cases hp : today.2.1 < m ∨ (today.2.1 = m ∧ today.2.2 < d)
    · rw [if_pos (hc.mpr hp), if_pos hp]
    · rw [if_neg (fun hb => hp (hc.mp hb)), if_neg hp]

/-- C5 witness: an unparsable string is rejected, and for a parsed birthdate
the acceptance is exactly the age-formula test. -/
theorem C5_witness :
    validate_birthdate (2026, 10, 12) "garbage" = false
    ∧ (validate_birthdate (2026, 10, 12) "1990-05-10" = true ↔
        18 ≤ ((2026, 10, 12).1 : Int) - (1990 : Int) -
          (if (2026, 10, 12).2.1 < 5 ∨ ((2026, 10, 12).2.1 = 5 ∧ (2026, 10, 12).2.2 < 10)
           then 1 else 0)) :=
  ⟨(C5_birthdate_boundary (2026, 10, 12) "garbage").1 (by decide),
   (C5_birthdate_boundary (2026, 10, 12) "1990-05-10").2.1 1990 5 10 (by decide)⟩

/-- C9 counterexample: the string "a@b.com\n" does not match the
`local@domain.tld` shape (it carries a trailing newline), yet
`validate_email` accepts it: Python's `re` lets `$` match just before a
final newline. -/
theorem C9_counterexample :
    matchEmailShape ("a@b.com\n").data = false
    ∧ validate_email "a@b.com\n" = true := by
  decide

/-- C9 (amended): `validate_email` returns false for every string that
neither matches the `local@domain.tld` shape nor consists of a
shape-matching string followed by exactly one trailing newline; and a
submission whose (defaulted) email field fails `validate_email` while its
required fields are all present is answered with 400 "Email inválido" and
no outbound call. -/
theorem C9_email_shape (env : Env) (fd photos : List (String × String))
    (s : String)
    (hshape : matchEmailShape s.data = false)
    (hnl : s.data.getLast? = some '\n' → matchEmailShape s.data.dropLast = false)
    (hs : s = getS (resolved_fd fd) "email")
    (hreq : firstMissing (resolved_required fd) (resolved_fd fd) = none) :
    validate_email s = false
    ∧ handle_submission env fd photos = (⟨400, false, "Email inválido", none⟩, []) := by
  have hmail : validate_email s = false := by
    simp only [validate_email, hshape, Bool.false_or]
    cases hl : s.data.getLast? with
    | none => rfl
    | some c =>
        by_cases hc : c = '\n'
        · subst hc
          simp [hnl hl]
        · simp [hc]
  refine ⟨hmail, ?_⟩
  rw [hs] at hmail
  simp [handle_submission, validation_error, hreq, hmail]

/-- C9 witness: the valid NextCard submission with email "not-an-email" is
rejected with 400 "Email inválido" and no outbound call. -/
theorem C9_witness :
    validate_email "not-an-email" = false
    ∧ handle_submission envTextOk fdNCBadEmail photosOk
        = (⟨400, false, "Email inválido", none⟩, []) :=
  C9_email_shape envTextOk fdNCBadEmail photosOk "not-an-email"
    (by decide) (by decide) (by decide) (by decide)

/-- C1: for a submission that reaches dispatch, if the text-send call fails
the dispatcher reports overall failure, no media-upload post and no
decode attempt happens for any photo slot, and the response is 500 with the
dispatch-failure message and no applicationId. -/
theorem C1_text_failure (env : Env) (fd photos : List (String × String))
    (hd : reaches_dispatch env fd photos = true) (ht : env.textOk = false) :
    (send_to_telegram env
        (format_message (is_job_application fd) (resolved_fd fd) photos) photos).1 = false
    ∧ (handle_submission env fd photos).1
        = ⟨500, false, "Erro ao enviar para o Telegram", none⟩
    ∧ (handle_submission env fd photos).2.all (fun c => !isMediaUpload c) = true
    ∧ attempted_slots (handle_submission env fd photos).2 = [] := by
  have hv : validation_error env fd photos = none := Option.isNone_iff_eq_none.mp hd
  refine ⟨?_, ?_, ?_, ?_⟩ <;>
    simp [handle_submission, hv, send_to_telegram, ht, isMediaUpload, attempted_slots]

/-- C1 witness: the valid NextCard submission under a failing text send. -/
theorem C1_witness :
    (send_to_telegram envTextFail
        (format_message (is_job_application fdNC) (resolved_fd fdNC) photosOk) photosOk).1 = false
    ∧ (handle_submission envTextFail fdNC photosOk).1
        = ⟨500, false, "Erro ao enviar para o Telegram", none⟩
    ∧ (handle_submission envTextFail fdNC photosOk).2.all (fun c => !isMediaUpload c) = true
    ∧ attempted_slots (handle_submission envTextFail fdNC photosOk).2 = [] :=
  C1_text_failure envTextFail fdNC photosOk (by decide) rfl

/-- C2: for a submission that reaches dispatch, the dispatcher's overall
result equals the text-send outcome; on text-send success the response is
200 with the generated applicationId, on failure it is the 500 response;
and the response does not depend on the media-upload or decode oracles at
all, i.e. it is unchanged however many image uploads fail. -/
theorem C2_success_iff_text (env : Env) (fd photos : List (String × String))
    (hd : reaches_dispatch env fd photos = true) :
    (send_to_telegram env
        (format_message (is_job_application fd) (resolved_fd fd) photos) photos).1 = env.textOk
    ∧ (env.textOk = true →
        (handle_submission env fd photos).1
          = ⟨200, true, "Dados enviados com sucesso",
              some (application_id (is_job_application fd) env.tokenBytes)⟩)
    ∧ (env.textOk = false →
        (handle_submission env fd photos).1
          = ⟨500, false, "Erro ao enviar para o Telegram", none⟩)
    ∧ ∀ up bd,
        (handle_submission (⟨env.textOk, up, bd, env.today, env.tokenBytes⟩ : Env) fd photos).1
          = (handle_submission env fd photos).1 := by
  have hv : validation_error env fd photos = none := Option.isNone_iff_eq_none.mp hd
  refine ⟨?_, ?_, ?_, ?_⟩
  · unfold send_to_telegram
    cases h : env.textOk <;> simp [h]
  · intro ht
    simp [handle_submission, hv, send_to_telegram, ht]
  · intro ht
    simp [handle_submission, hv, send_to_telegram, ht]
  · intro up bd
    have hv' : validation_error (⟨env.textOk, up, bd, env.today, env.tokenBytes⟩ : Env) fd photos
        = none := hv
    cases h : env.textOk
    · rw [h] at hv'
      simp [handle_submission, hv, hv', send_to_telegram, h]
    · rw [h] at hv'
      simp [handle_submission, hv, hv', send_to_telegram, h]

/-- C2 witness: the spec's partial-failure scenario — text send succeeds,
front upload succeeds, back fails, selfie succeeds: exactly two successful
media uploads out of three attempts, response still 200 with the generated
applicationId. -/
theorem C2_witness :
    ((handle_submission envMixed fdJob photosOk).2.filter isSuccessfulUpload).length = 2
    ∧ ((handle_submission envMixed fdJob photosOk).2.filter isMediaUpload).length = 3
    ∧ (handle_submission envMixed fdJob photosOk).1
        = ⟨200, true, "Dados enviados com sucesso",
            some (application_id (is_job_application fdJob) envMixed.tokenBytes)⟩ :=
  ⟨by decide, by decide,
   (C2_success_iff_text envMixed fdJob photosOk (by decide)).2.1 rfl⟩

/-- C6: for a job application, each field of the optional-defaults set is
independently replaced by its fixed default exactly when it is absent or
empty, every such field is non-empty afterwards, the defaulted dict is
exactly what the required-field check receives, and no message belonging to
a defaulted field can ever be the reported required-field failure. -/
theorem C6_optional_defaults (fd : List (String × String)) (f d : String)
    (hmem : (f, d) ∈ optional_fields_job) :
    ((applyDefaults fd).lookup f
        = if isFilled fd f then fd.lookup f else some d)
    ∧ isFilled (applyDefaults fd) f = true
    ∧ (is_job_application fd = true → resolved_fd fd = applyDefaults fd)
    ∧ ∀ mg, (f, mg) ∈ required_fields_job →
        firstMissing required_fields_job (applyDefaults fd) ≠ some mg := by
  refine ⟨lookup_applyDefaults fd f d hmem, isFilled_applyDefaults fd f d hmem, ?_, ?_⟩
  · intro hj
    rw [resolved_fd, if_pos hj]
  · intro mg hreqmem hsome
    obtain ⟨g, hg, hgf⟩ := firstMissing_eq_some _ _ _ hsome
    have huniq : ∀ a b : String,
        (a, mg) ∈ required_fields_job → (b, mg) ∈ required_fields_job → a = b := by
      intro a b ha hb
      simp only [required_fields_job, List.mem_cons, List.mem_singleton,
        List.not_mem_nil, or_false, Prod.mk.injEq] at ha hb
      rcases ha with ⟨rfl, rfl⟩ | ⟨rfl, rfl⟩ | ⟨rfl, rfl⟩ | ⟨rfl, rfl⟩ | ⟨rfl, rfl⟩ <;>
        simp_all
    have hgf' : g = f := huniq g f hg hreqmem
    subst hgf'
    simp [isFilled_applyDefaults fd g d hmem] at hgf

/-- C6 witness: an empty `lastName` in the job submission is defaulted to
"N/A" and is non-empty after defaulting. -/
theorem C6_witness :
    ((applyDefaults fdJob).lookup "lastName"
        = if isFilled fdJob "lastName" then fdJob.lookup "lastName" else some "N/A")
    ∧ isFilled (applyDefaults fdJob) "lastName" = true :=
  ⟨(C6_optional_defaults fdJob "lastName" "N/A" (by decide)).1,
   (C6_optional_defaults fdJob "lastName" "N/A" (by decide)).2.1⟩

/-- C7: if some required field of the resolved schema is absent or empty in
the (defaulted) submission, the required-field loop reports a message, and
whatever message it reports first (in set order) becomes the whole 400
response, with no outbound call made. -/
theorem C7_first_missing_field (env : Env) (fd photos : List (String × String))
    (f m : String) (hmem : (f, m) ∈ resolved_required fd)
    (hmiss : isFilled (resolved_fd fd) f = false) :
    (firstMissing (resolved_required fd) (resolved_fd fd)).isSome = true
    ∧ ∀ msg, firstMissing (resolved_required fd) (resolved_fd fd) = some msg →
        handle_submission env fd photos = (⟨400, false, msg, none⟩, []) := by
  refine ⟨firstMissing_isSome _ _ _ _ hmem hmiss, ?_⟩
  intro msg hmsg
  simp [handle_submission, validation_error, hmsg]

/-- C7 witness: the job submission with an empty email field is answered
400 "Email é obrigatório" with no outbound call. -/
theorem C7_witness :
    (firstMissing (resolved_required fdJobMissing) (resolved_fd fdJobMissing)).isSome = true
    ∧ handle_submission envTextOk fdJobMissing photosOk
        = (⟨400, false, "Email é obrigatório", none⟩, []) :=
  ⟨(C7_first_missing_field envTextOk fdJobMissing photosOk
      "email" "Email é obrigatório" (by decide) (by decide)).1,
   (C7_first_missing_field envTextOk fdJobMissing photosOk
      "email" "Email é obrigatório" (by decide) (by decide)).2
     "Email é obrigatório" (by decide)⟩

/-- Character-list form of the generated applicationId. -/
theorem application_id_data (isJob : Bool) (bytes : List Nat) :
    (application_id isJob bytes).data
      = (if isJob then ['J', 'H'] else ['N', 'C'])
          ++ (token_hex bytes).map Char.toUpper := by
  cases isJob <;> simp [application_id, String.data_append]

/-- Every character of the uppercased hex encoding of valid bytes is an
uppercase hexadecimal digit. -/
theorem token_hex_upper_mem (bytes : List Nat) (hv : ∀ b ∈ bytes, b < 256) :
    ∀ c ∈ (token_hex bytes).map Char.toUpper, c ∈ uppercaseHexDigits := by
  intro c hc
  simp only [token_hex, List.mem_map, List.mem_flatMap] at hc
  obtain ⟨a, ⟨b, hb, hab⟩, hac⟩ := hc
  have hblt := hv b hb
  have h16 : b / 16 < 16 := by omega
  have h16' : b % 16 < 16 := by omega
  subst hac
  rcases List.mem_cons.mp hab with rfl | hab2
  · exact hexDigitChar_toUpper_mem _ h16
  · rcases List.mem_singleton.mp hab2 with rfl
    exact hexDigitChar_toUpper_mem _ h16'

/-- C8: an applicationId appears in the response only when the submission
reached dispatch and the text send succeeded, and it always consists of the
SchemaKind prefix ("JH" for a job application, "NC" for a NextCard
application) followed by exactly 8 uppercase hexadecimal characters. -/
theorem C8_application_id_shape (env : Env) (fd photos : List (String × String))
    (hb : env.tokenBytes.length = 4) (hv : ∀ b ∈ env.tokenBytes, b < 256) :
    ((handle_submission env fd photos).1.applicationId.isSome = true →
        reaches_dispatch env fd photos = true ∧ env.textOk = true)
    ∧ ∀ s, (handle_submission env fd photos).1.applicationId = some s →
        s.data.take 2 = (if is_job_application fd then ['J', 'H'] else ['N', 'C'])
        ∧ (s.data.drop 2).length = 8
        ∧ (s.data.drop 2).all (fun c => uppercaseHexDigits.contains c) = true := by
  cases hve : validation_error env fd photos with
  | some m =>
      constructor
      · intro h
        simp [handle_submission, hve] at h
      · intro s hs
        simp [handle_submission, hve] at hs
  | none =>
      cases ht : env.textOk
      · constructor
        · intro h
          simp [handle_submission, hve, send_to_telegram, ht] at h
        · intro s hs
          simp [handle_submission, hve, send_to_telegram, ht] at hs
      · constructor
        · intro _
          exact ⟨by simp [reaches_dispatch, hve], rfl⟩
        · intro s hs
          have hs' : s = application_id (is_job_application fd) env.tokenBytes := by
            simp [handle_submission, hve, send_to_telegram, ht] at hs
            exact hs.symm
          subst hs'
          rw [application_id_data]
          refine ⟨?_, ?_, ?_⟩
          · cases hj : is_job_application fd <;> simp
          · cases hj : is_job_application fd <;>
              simp [token_hex_length, hb]
          · have hall : ∀ c ∈ (token_hex env.tokenBytes).map Char.toUpper,
                uppercaseHexDigits.contains c = true := by
              intro c hc
              exact List.elem_iff.mpr (token_hex_upper_mem env.tokenBytes hv c hc)
            cases hj : is_job_application fd <;>
              simpa [List.all_eq_true] using hall

/-- C8 witness: the all-success run on the NextCard submission yields the
applicationId "NC1234ABFF" — prefix "NC" plus 8 uppercase hex characters. -/
theorem C8_witness :
    ("NC1234ABFF" : String).data.take 2
        = (if is_job_application fdNC then ['J', 'H'] else ['N', 'C'])
    ∧ (("NC1234ABFF" : String).data.drop 2).length = 8
    ∧ (("NC1234ABFF" : String).data.drop 2).all
        (fun c => uppercaseHexDigits.contains c) = true :=
  (C8_application_id_shape envTextOk fdNC photosOk (by decide) (by decide)).2
    "NC1234ABFF" (by decide)

/-- The first unfilled slot reported by the photo loop is one of the slot
names it iterates over. -/
theorem firstUnfilled_mem (keys : List String) (photos : List (String × String))
    (t : String) (h : firstUnfilled keys photos = some t) : t ∈ keys := by
  induction keys with
  | nil => simp [firstUnfilled] at h
  | cons k rest ih =>
      by_cases hk : isFilled photos k
      · simp only [firstUnfilled, hk, if_true] at h
        exact List.mem_cons_of_mem _ (ih h)
      · simp only [firstUnfilled, hk, if_false] at h
        simp [← Option.some_inj.mp h]

/-- Any message produced by the validation cascade is either the message of
a genuinely missing required field or one of the five fixed later-stage
messages. -/
theorem validation_error_cases (env : Env) (fd photos : List (String × String))
    (m : String) (h : validation_error env fd photos = some m) :
    (∃ g, (g, m) ∈ resolved_required fd ∧ isFilled (resolved_fd fd) g = false)
    ∨ m ∈ ["Email inválido", "Número de telefone inválido",
           "Você deve ter pelo menos 18 anos", "Foto front é obrigatória",
           "Foto back é obrigatória", "Foto selfie é obrigatória"] := by
  cases hfm : firstMissing (resolved_required fd) (resolved_fd fd) with
  | some m' =>
      obtain ⟨g, hg, hgf⟩ := firstMissing_eq_some _ _ _ hfm
      have hm : m' = m := by simpa [validation_error, hfm] using h
      exact Or.inl ⟨g, hm ▸ hg, hgf⟩
  | none =>
      simp only [validation_error, hfm] at h
      split_ifs at h with h1 h2 h3
      · rw [Option.some.injEq] at h
        subst h
        right
        decide
      · rw [Option.some.injEq] at h
        subst h
        right
        decide
      · rw [Option.some.injEq] at h
        subst h
        right
        decide
      · cases hfu : firstUnfilled ["front", "back", "selfie"] photos with
        | some t =>
            simp only [hfu, Option.some.injEq] at h
            subst h
            have ht := firstUnfilled_mem ["front", "back", "selfie"] photos t hfu
            simp only [List.mem_cons, List.not_mem_nil, or_false] at ht
            right
            rcases ht with rfl | rfl | rfl <;> decide
        | none =>
            simp only [hfu] at h
            exact Option.noConfusion h

/-- C10: for every job application, the 400 response carrying the
employmentStatus-required message is unreachable: employmentStatus is
defaulted to "candidate" before the required-field check runs. -/
theorem C10_employment_status_unreachable (env : Env)
    (fd photos : List (String × String)) (hjob : is_job_application fd = true) :
    (handle_submission env fd photos).1.message ≠ "Situação de emprego é obrigatória" := by
  have hes : isFilled (resolved_fd fd) "employmentStatus" = true := by
    rw [resolved_fd, if_pos hjob]
    exact isFilled_applyDefaults fd "employmentStatus" "candidate" (by decide)
  cases hve : validation_error env fd photos with
  | none =>
      cases hsr : (send_to_telegram env
          (format_message (is_job_application fd) (resolved_fd fd) photos) photos).1 <;>
        simp [handle_submission, hve, hsr]
  | some m =>
      simp only [handle_submission, hve]
      intro hm
      subst hm
      rcases validation_error_cases env fd photos _ hve with ⟨g, hg, hgf⟩ | hfix
      · rw [resolved_required, if_pos hjob] at hg
        have hge : g = "employmentStatus" := by
          simp only [required_fields_job, List.mem_cons, List.not_mem_nil,
            or_false, Prod.mk.injEq] at hg
          rcases hg with ⟨rfl, h⟩ | ⟨rfl, h⟩ | ⟨rfl, h⟩ | ⟨rfl, h⟩ | ⟨rfl, h⟩ <;>
            simp_all
        subst hge
        rw [hes] at hgf
        cases hgf
      · simp at hfix

/-- C10 witness: the valid job submission never sees that message. -/
theorem C10_witness :
    (handle_submission envTextOk fdJob photosOk).1.message
      ≠ "Situação de emprego é obrigatória" :=
  C10_employment_status_unreachable envTextOk fdJob photosOk (by decide)

end Solicit
